import Mathlib

/-!
Verification of the codex MCP server core (transport pump, subagent tool
handler, supervisor tool handler) against its natural-language specification.

The definitions below are a shallow embedding of the Rust sources:
  - `src/codex-rs/mcp-server/src/lib.rs` (the transport pump in `run_main`),
  - `src/codex-rs/mcp-server/src/subagent_tool_handler.rs`,
  - `src/codex-rs/mcp-server/src/supervisor_tool_handler.rs`.
External collaborators (serde decoding/encoding, the tokio I/O layer, and the
codex-core `AsyncSubAgentIntegration` / `AgentRuntime` backends) are modelled
as explicit function parameters or as small state-passing models taken from
the specification, each marked in its doc comment.
-/

/-- Severity of a tracing log call in the source (`debug!`, `info!`, `warn!`,
`error!`). -/
inductive LogLevel where
  | debug
  | info
  | warn
  | error
  deriving DecidableEq

/-- One log record emitted by the embedded code. -/
structure LogEntry where
  level : LogLevel
  text : String
  deriving DecidableEq

/-- One observation of `lines.next_line().await` in the stdin reader task of
`run_main` (lib.rs lines 83-103): a successful line, end-of-file
(`Ok(None)`), or an I/O error (`Err(e)`). -/
inductive ReadEvent where
  | line (s : String)
  | eof
  | ioError (e : String)
  deriving DecidableEq

/-- Shallow embedding of the stdin reader task of `run_main` (lib.rs lines
83-103).  `decode` stands for the external `serde_json::from_str::<JSONRPCMessage>`;
`recvOpen` models whether the bounded channel receiver is still alive
(`incoming_tx.send(msg).await.is_err()` is the negation).  Returns the list of
messages pushed to the channel and the log entries emitted, in order.

The loop head is `while let Some(line) = lines.next_line().await.unwrap_or_default()`:
an `Err` from `next_line` is converted by `unwrap_or_default` into `None`, so
both `eof` and `ioError` end the loop, after which the task logs
`debug!("stdin reader finished (EOF)")`.  A line that fails to decode is
logged with `error!("Failed to deserialize JSONRPCMessage: {e}")` and the
loop continues. -/
def readerLoop {α : Type} (decode : String → Except String α) (recvOpen : Bool) :
    List ReadEvent → List α × List LogEntry
  | [] => ([], [⟨LogLevel.debug, "stdin reader finished (EOF)"⟩])
  | ReadEvent.eof :: _ => ([], [⟨LogLevel.debug, "stdin reader finished (EOF)"⟩])
  | ReadEvent.ioError _ :: _ => ([], [⟨LogLevel.debug, "stdin reader finished (EOF)"⟩])
  | ReadEvent.line s :: rest =>
    match decode s with
    | Except.ok msg =>
      if recvOpen then
        let r := readerLoop decode recvOpen rest
        (msg :: r.1, r.2)
      else
        ([], [⟨LogLevel.debug, "stdin reader finished (EOF)"⟩])
    | Except.error e =>
      let r := readerLoop decode recvOpen rest
      (r.1, ⟨LogLevel.error, "Failed to deserialize JSONRPCMessage: " ++ e⟩ :: r.2)

/-- Shallow embedding of the stdout writer task of `run_main` (lib.rs lines
178-198).  `ser` stands for the external `serde_json::to_string`; `writeErr k`
models the outcome of the `k`-th `stdout.write_all(..)` call of the task
(`none` = success, `some e` = failure with error `e`; a failing `write_all`
is modelled as emitting nothing).  Returns the chunks written to stdout and
the log entries, in order.  A serialization failure is logged with
`error!("Failed to serialize JSONRPCMessage: {e}")` and the loop continues;
a write failure is logged and breaks the loop; after the loop the task logs
`info!("stdout writer exited (channel closed)")`. -/
def writerLoop {α : Type} (ser : α → Except String String) (writeErr : Nat → Option String) :
    List α → Nat → List String × List LogEntry
  | [], _ => ([], [⟨LogLevel.info, "stdout writer exited (channel closed)"⟩])
  | m :: rest, k =>
    match ser m with
    | Except.ok json =>
      match writeErr k with
      | some e =>
        ([], [⟨LogLevel.error, "Failed to write to stdout: " ++ e⟩,
              ⟨LogLevel.info, "stdout writer exited (channel closed)"⟩])
      | none =>
        match writeErr (k + 1) with
        | some e =>
          ([json], [⟨LogLevel.error, "Failed to write newline to stdout: " ++ e⟩,
                    ⟨LogLevel.info, "stdout writer exited (channel closed)"⟩])
        | none =>
          let r := writerLoop ser writeErr rest (k + 2)
          (json :: "\n" :: r.1, r.2)
    | Except.error e =>
      let r := writerLoop ser writeErr rest k
      (r.1, ⟨LogLevel.error, "Failed to serialize JSONRPCMessage: " ++ e⟩ :: r.2)

/-- Concatenation of the chunks a writer run sent to the output stream. -/
def strConcat (chunks : List String) : String :=
  chunks.foldl (fun a c => a ++ c) ""

/-- Whether a string ends with a newline character (used to detect a partial
final line on the output stream). -/
def endsWithNewline (s : String) : Bool :=
  s.data.getLast? == some '\n'

/-- Concrete decoder used to instantiate the reader model on concrete inputs:
accepts exactly the line "ok". -/
def decode0 (s : String) : Except String Unit :=
  if s = "ok" then Except.ok () else Except.error "invalid"

/-- Concrete serializer for the writer model: every message serializes to "msg". -/
def ser0 (_ : Unit) : Except String String :=
  Except.ok "msg"

/-- Concrete write-failure pattern: the second `write_all` call (index 1, the
newline write of the first message) fails with "broken pipe". -/
def we1 (k : Nat) : Option String :=
  if k = 1 then some "broken pipe" else none

/-- Concrete serializer that fails on `false` and succeeds on `true`. -/
def serW (b : Bool) : Except String String :=
  if b then Except.ok "m" else Except.error "cyclic structure"

/-- ASCII lowercase of a character; models Rust `char` lowercasing on the
ASCII alphabet, which is all `parse_agent_type` compares against. -/
def charLower (c : Char) : Char :=
  if c.toNat ≥ 65 ∧ c.toNat ≤ 90 then Char.ofNat (c.toNat + 32) else c

/-- Embedding of Rust `str::to_lowercase()` as used by `parse_agent_type`
(subagent_tool_handler.rs line 166); all matched patterns are ASCII, where
Rust lowercasing is exactly per-character ASCII lowering. -/
def strLower (s : String) : String :=
  ⟨s.data.map charLower⟩

/-- `needle` occurs as a contiguous substring of `hay` (stated on the
underlying character lists). -/
def strContains (hay needle : String) : Prop :=
  ∃ p q, hay.data = p ++ needle.data ++ q

/-- Boolean (executable) version of `strContains`. -/
def strContainsB (hay needle : String) : Bool :=
  decide (needle.data <:+: hay.data)

deriving instance DecidableEq for Except

/-- The closed set of agent kinds (codex-core `AgentType`, spec section 3:
"one of a closed set of agent kinds"). -/
inductive AgentType where
  | CodeExpert
  | SecurityExpert
  | TestingExpert
  | DocsExpert
  | DeepResearcher
  | DebugExpert
  | PerformanceExpert
  | General
  deriving DecidableEq

/-- Modelled from the spec: codex-core `AgentType::as_str` is not under
`src/`; the spec (section 3) names the closed set CodeExpert, SecurityExpert,
TestingExpert, DocsExpert, DeepResearcher, DebugExpert, PerformanceExpert,
General, so `as_str` renders those names. -/
def AgentType.as_str : AgentType → String
  | AgentType.CodeExpert => "CodeExpert"
  | AgentType.SecurityExpert => "SecurityExpert"
  | AgentType.TestingExpert => "TestingExpert"
  | AgentType.DocsExpert => "DocsExpert"
  | AgentType.DeepResearcher => "DeepResearcher"
  | AgentType.DebugExpert => "DebugExpert"
  | AgentType.PerformanceExpert => "PerformanceExpert"
  | AgentType.General => "General"

/-- Embedding of `parse_agent_type` (subagent_tool_handler.rs lines 164-179).
The Rust `match type_str.to_lowercase().as_str()` over string literals is a
sequential comparison against the listed alternatives, falling through to
`Err(anyhow!("Unknown agent type: {}", type_str))`. -/
def parse_agent_type (type_str : String) : Except String AgentType :=
  let s := strLower type_str
  if s = "codeexpert" ∨ s = "code-reviewer" ∨ s = "code-expert" then
    Except.ok AgentType.CodeExpert
  else if s = "securityexpert" ∨ s = "sec-audit" ∨ s = "security-expert" ∨ s = "security" then
    Except.ok AgentType.SecurityExpert
  else if s = "testingexpert" ∨ s = "test-gen" ∨ s = "testing-expert" ∨ s = "tester" then
    Except.ok AgentType.TestingExpert
  else if s = "docsexpert" ∨ s = "docs-expert" ∨ s = "documentation" then
    Except.ok AgentType.DocsExpert
  else if s = "deepresearcher" ∨ s = "researcher" ∨ s = "research" then
    Except.ok AgentType.DeepResearcher
  else if s = "debugexpert" ∨ s = "debug-expert" ∨ s = "debugger" then
    Except.ok AgentType.DebugExpert
  else if s = "performanceexpert" ∨ s = "perf-expert" ∨ s = "performance" then
    Except.ok AgentType.PerformanceExpert
  else if s = "general" then
    Except.ok AgentType.General
  else
    Except.error ("Unknown agent type: " ++ type_str)

/-- mcp_types `TextContent` (fields `r#type`, `text`, `annotations`; the
annotation payload is never set by this code, so it is modelled as an
`Option Unit`). -/
structure TextContent where
  type : String
  text : String
  annotations : Option Unit
  deriving DecidableEq

/-- mcp_types `ContentBlock`; only the `TextContent` variant is produced by
the embedded handlers. -/
inductive ContentBlock where
  | textContent (t : TextContent)
  deriving DecidableEq

/-- mcp_types `CallToolResult` (`structured_content` is never set by this
code, so it is modelled as an `Option Unit`). -/
structure CallToolResult where
  content : List ContentBlock
  is_error : Option Bool
  structured_content : Option Unit
  deriving DecidableEq

/-- The success result constructed at the end of `handle_subagent_tool_call`
(subagent_tool_handler.rs lines 152-160): one text content block, no error
flag, no structured content. -/
def mkTextResult (s : String) : CallToolResult :=
  { content := [ContentBlock.textContent { type := "text", text := s, annotations := none }],
    is_error := none,
    structured_content := none }

/-- Text of the first content block of a result (empty if none). -/
def getText (r : CallToolResult) : String :=
  match r.content with
  | ContentBlock.textContent t :: _ => t.text
  | [] => ""

/-- `SubAgentToolParam` (crate module `subagent_tool`, fields as used by the
handler: `action`, `agent_type`, `task`, `agent_id`, `task_id`). -/
structure SubAgentToolParam where
  action : String
  agent_type : Option String
  task : Option String
  agent_id : Option String
  task_id : Option String
  deriving DecidableEq

/-- Snapshot of one agent task record as the handler reads it (codex-core
agent state: `agent_id`, `agent_type`, `status`, `progress`, `tokens_used`).
`status` is modelled as its display string and `progress` in tenths of a
percent, so the Rust one-decimal rendering is exact. -/
structure AgentState where
  agent_id : String
  agent_type : AgentType
  status : String
  progress : Nat
  tokens_used : Nat
  deriving DecidableEq

/-- Modelled from the spec: the mutable state behind codex-core
`AsyncSubAgentIntegration` (not under `src/`): the registry of agent task
records, the per-agent thinking traces, and a counter for identifier
generation (spec section 4.3: "allocates a new record", "id: opaque unique
string, generated at start time"). -/
structure IntegrationState where
  states : List AgentState
  thinking : List (String × String)
  next_id : Nat
  deriving DecidableEq

/-- Modelled from the spec: `AsyncSubAgentIntegration::start_agent`
(codex-core, not under `src/`); spec section 4.3: "start(kind, goal) -> id:
allocates a new record in Pending, transitions it to Running, and launches a
concurrent Executor unit; returns immediately with the identifier". -/
def start_agent (st : IntegrationState) (k : AgentType) (task : String) :
    String × IntegrationState :=
  let id := "agent-" ++ toString st.next_id
  (id,
   { st with
     next_id := st.next_id + 1,
     states := st.states ++
       [{ agent_id := id, agent_type := k, status := "running", progress := 0,
          tokens_used := 0 }],
     thinking := st.thinking })

/-- Modelled from the spec: `AsyncSubAgentIntegration::get_agent_states`
(codex-core, not under `src/`); spec section 4.5: "check_inbox() -> snapshot
of all current records (read-only)". -/
def get_agent_states (st : IntegrationState) : List AgentState :=
  st.states

/-- Modelled from the spec: `AsyncSubAgentIntegration::generate_task_summary`
(codex-core, not under `src/`); spec section 4.5: "get_status(id) ->
human-oriented summary derived from the record; unknown id yields a 'no such
agent' summary, not a hard error". -/
def generate_task_summary (st : IntegrationState) (id : String) : String :=
  match st.states.find? (fun s => s.agent_id == id) with
  | some s => "Agent " ++ id ++ " (" ++ s.agent_type.as_str ++ "): " ++ s.status
  | none => "No such agent: " ++ id

/-- Modelled from the spec: `AsyncSubAgentIntegration::auto_dispatch_task`
(codex-core, not under `src/`); spec section 4.5: "auto_dispatch(goal) -> id:
selects a kind by inspecting the free-text goal (keyword-based heuristic is
acceptable; determinism across identical input is required) then calls
start_task". -/
def auto_dispatch_task (st : IntegrationState) (task : String) :
    String × IntegrationState :=
  let kind :=
    if strContainsB (strLower task) "security" then AgentType.SecurityExpert
    else if strContainsB (strLower task) "test" then AgentType.TestingExpert
    else if strContainsB (strLower task) "research" then AgentType.DeepResearcher
    else AgentType.CodeExpert
  start_agent st kind task

/-- Modelled from the spec: `AsyncSubAgentIntegration::get_thinking_summary`
(codex-core, not under `src/`); spec sections 3 and 4.5: the thinking trace
is queried by id and is absent for an unknown id. -/
def get_thinking_summary (st : IntegrationState) (id : String) : Option String :=
  (st.thinking.find? (fun p => p.1 == id)).map (fun p => p.2)

/-- Modelled from the spec: `AsyncSubAgentIntegration::get_all_thinking_summaries`
(codex-core, not under `src/`). -/
def get_all_thinking_summaries (st : IntegrationState) : String :=
  st.thinking.foldl (fun a p => a ++ p.1 ++ ": " ++ p.2 ++ "\n") ""

/-- Modelled from the spec: `AsyncSubAgentIntegration::generate_token_report`
(codex-core, not under `src/`); spec section 4.5: "aggregate text summarizing
tokens_used across all records". -/
def generate_token_report (st : IntegrationState) : String :=
  "Total tokens used: " ++ toString (st.states.foldl (fun a s => a + s.tokens_used) 0)

/-- One listing line of the `check_inbox` arm (subagent_tool_handler.rs lines
80-88): `"- **{}** ({}): {} - {:.1}% complete\n"` applied to the agent id,
type, status and progress. -/
def fmtProgress (tenths : Nat) : String :=
  toString (tenths / 10) ++ "." ++ toString (tenths % 10)

/-- See `fmtProgress`; the whole per-agent line. -/
def fmtAgentLine (s : AgentState) : String :=
  "- **" ++ s.agent_id ++ "** (" ++ s.agent_type.as_str ++ "): " ++ s.status ++
    " - " ++ fmtProgress s.progress ++ "% complete\n"

/-- The `check_inbox` response text (subagent_tool_handler.rs lines 71-91). -/
def checkInboxText (states : List AgentState) : String :=
  if states.isEmpty then
    "📬 Inbox\n\nNo active agents or notifications."
  else
    states.foldl (fun acc s => acc ++ fmtAgentLine s) "📬 Active Agents\n\n"

/-- Embedding of `handle_subagent_tool_call` (subagent_tool_handler.rs lines
14-161).  The serde deserialization of the raw `arguments` value into
`SubAgentToolParam` is the external boundary; the embedding starts from the
parsed parameters.  The shared mutable state behind the `Arc` is passed and
returned explicitly; `Err` propagation with `?` leaves the state untouched.
The Rust `match params.action.as_str()` over string literals is a sequential
comparison, falling through to `Err(anyhow!("Unknown action: {}", params.action))`. -/
def handle_subagent_tool_call (params : SubAgentToolParam)
    (async_integration : Option IntegrationState) :
    Except String CallToolResult × Option IntegrationState :=
  match async_integration with
  | none => (Except.error "AsyncSubAgentIntegration not initialized", none)
  | some st =>
    if params.action = "start_task" then
      match params.agent_type with
      | none => (Except.error "agent_type required for start_task", some st)
      | some agent_type_str =>
        match params.task with
        | none => (Except.error "task required for start_task", some st)
        | some task =>
          match parse_agent_type agent_type_str with
          | Except.error e => (Except.error e, some st)
          | Except.ok agent_type =>
            let r := start_agent st agent_type task
            (Except.ok (mkTextResult
              ("✅ SubAgent Started\n\n**Agent Type**: " ++ agent_type_str ++
               "\n**Agent ID**: " ++ r.1 ++ "\n**Task**: " ++ task ++
               "\n\n**Status**: Agent is now running in the background.\n\n" ++
               "**Next Steps**:\n- Use `get_status` with agent_id to check progress\n" ++
               "- Use `get_thinking` with agent_id to see reasoning\n" ++
               "- Use `get_token_report` to track token usage")),
             some r.2)
    else if params.action = "check_inbox" then
      (Except.ok (mkTextResult (checkInboxText (get_agent_states st))), some st)
    else if params.action = "get_status" then
      match params.task_id.or params.agent_id with
      | none => (Except.error "agent_id or task_id required for get_status", some st)
      | some agent_id =>
        (Except.ok (mkTextResult
          ("🤖 SubAgent Status\n\n" ++ generate_task_summary st agent_id)), some st)
    else if params.action = "auto_dispatch" then
      match params.task with
      | none => (Except.error "task required for auto_dispatch", some st)
      | some task =>
        let r := auto_dispatch_task st task
        (Except.ok (mkTextResult
          ("🎯 Auto-Dispatch Complete\n\n**Agent ID**: " ++ r.1 ++
           "\n**Task**: " ++ task ++
           "\n\n**Status**: Agent has been automatically selected and started.\n\n" ++
           "Use `get_status` with agent_id=" ++ r.1 ++ " to check progress.")),
         some r.2)
    else if params.action = "get_thinking" then
      match params.task_id.or params.agent_id with
      | some task_id =>
        let thinking := (get_thinking_summary st task_id).getD
          ("No thinking process found for " ++ task_id)
        (Except.ok (mkTextResult
          ("💭 Thinking Process\n\n**Task ID**: " ++ task_id ++ "\n\n" ++ thinking)),
         some st)
      | none =>
        (Except.ok (mkTextResult
          ("💭 All Thinking Processes\n\n" ++ get_all_thinking_summaries st)), some st)
    else if params.action = "get_token_report" then
      (Except.ok (mkTextResult
        ("📊 Token Usage Report\n\n" ++ generate_token_report st)), some st)
    else
      (Except.error ("Unknown action: " ++ params.action), some st)

/-- Modelled from the spec: the Message Router (`message_processor.rs`, not
under `src/`) converts a handler `Err` into a failed Response carrying the
error text (spec section 4.2: "Parameter validation failure yields a Response
whose content signals failure"; section 7: "surfaced to the caller as a failed
Response with a descriptive message; never crash the process"). -/
def routerWrap (r : Except String CallToolResult) : CallToolResult :=
  match r with
  | Except.ok res => res
  | Except.error e =>
    { content := [ContentBlock.textContent { type := "text", text := e, annotations := none }],
      is_error := some true,
      structured_content := none }

/-- `SupervisorToolParam` (crate module `supervisor_tool`, fields as used by
the handler: `goal`, `agents`, `strategy`, `merge_strategy`, `deadline`,
`format`). -/
structure SupervisorToolParam where
  goal : String
  agents : Option (List String)
  strategy : Option String
  merge_strategy : Option String
  deadline : Option Nat
  format : String
  deriving DecidableEq

/-- codex-core `AgentStatus` as observed by the supervisor handler. -/
inductive AgentStatus where
  | Completed
  | Failed
  | TimedOut
  | Running
  | Pending
  deriving DecidableEq

/-- Rust `{:?}` debug rendering of `AgentStatus`. -/
def AgentStatus.debugStr : AgentStatus → String
  | AgentStatus.Completed => "Completed"
  | AgentStatus.Failed => "Failed"
  | AgentStatus.TimedOut => "TimedOut"
  | AgentStatus.Running => "Running"
  | AgentStatus.Pending => "Pending"

/-- codex-core per-agent result returned by `delegate_parallel` as read by the
supervisor handler (`agent_name`, `status`, `tokens_used`, `duration_secs`,
`artifacts`, `error`).  `duration_secs` is modelled in hundredths of a second
so the Rust two-decimal rendering is exact. -/
structure AgentResult where
  agent_name : String
  status : AgentStatus
  tokens_used : Nat
  duration_secs : Nat
  artifacts : List String
  error : Option String
  deriving DecidableEq

/-- One agent configuration tuple passed to `delegate_parallel`
(supervisor_tool_handler.rs lines 121-133): agent name, goal, inputs, budget. -/
def AgentConfig : Type :=
  String × String × List (String × String) × Option Nat

/-- Modelled from the spec: codex-core `AgentRuntime` (not under `src/`),
reduced to the one operation the handler calls; spec section 4.4:
"delegate_parallel(tasks, optional deadline) -> sequence of results". -/
structure AgentRuntime where
  delegate_parallel : List AgentConfig → Option Nat → Except String (List AgentResult)

/-- The `agent_names` binding of `execute_supervisor`
(supervisor_tool_handler.rs lines 115-119): default to CodeExpert if the
agents list is not specified. -/
def supervisorAgentNames (params : SupervisorToolParam) : List String :=
  params.agents.getD ["CodeExpert"]

/-- The `agent_configs` binding of `execute_supervisor`
(supervisor_tool_handler.rs lines 123-133): one tuple per agent name with the
shared goal, empty inputs, and no per-agent budget limit. -/
def supervisorAgentConfigs (params : SupervisorToolParam) : List AgentConfig :=
  (supervisorAgentNames params).map
    (fun agent_name => (agent_name, params.goal, ([] : List (String × String)),
      (none : Option Nat)))

/-- Rust two-decimal rendering of a duration held in hundredths of a second. -/
def fmtDuration (hundredths : Nat) : String :=
  toString (hundredths / 100) ++ "." ++
    (if hundredths % 100 < 10 then "0" else "") ++ toString (hundredths % 100)

/-- Rust `{:?}` debug rendering of a `Vec<String>`. -/
def debugStrList (xs : List String) : String :=
  "[" ++ String.intercalate ", " (xs.map (fun s => "\"" ++ s ++ "\"")) ++ "]"

/-- One result block of the markdown rendering of `execute_supervisor`
(supervisor_tool_handler.rs lines 194-219). -/
def markdownResultBlock (i : Nat) (r : AgentResult) : String :=
  "### Agent " ++ toString (i + 1) ++ ": " ++ r.agent_name ++
    "\n- **Status**: " ++ r.status.debugStr ++
    "\n- **Tokens Used**: " ++ toString r.tokens_used ++
    "\n- **Duration**: " ++ fmtDuration r.duration_secs ++ "s\n" ++
    (if r.artifacts.isEmpty then ""
     else "- **Artifacts**:\n" ++
       r.artifacts.foldl (fun a art => a ++ "  - " ++ art ++ "\n") "") ++
    (match r.error with
     | some e => "- **Error**: " ++ e ++ "\n"
     | none => "") ++
    "\n"

/-- The markdown rendering of `execute_supervisor`
(supervisor_tool_handler.rs lines 181-236). -/
def markdownRender (params : SupervisorToolParam) (agent_names : List String)
    (results : List AgentResult) : String :=
  let header :=
    "# Supervisor Coordination Complete\n\n**Goal**: " ++ params.goal ++
    "\n**Agents**: " ++ String.intercalate ", " agent_names ++
    "\n**Strategy**: " ++ params.strategy.getD "parallel" ++
    "\n\n## Execution Results\n\n"
  let body :=
    ((results.enum.map (fun p => markdownResultBlock p.1 p.2)).foldl
      (fun a b => a ++ b) header)
  let success_count :=
    (results.filter (fun r => r.status = AgentStatus.Completed)).length
  body ++ "## Summary\n- **Total Agents**: " ++ toString results.length ++
    "\n- **Successful**: " ++ toString success_count ++
    "\n- **Failed**: " ++ toString (results.length - success_count) ++ "\n"

/-- Modelled from the spec: the JSON rendering branch of `execute_supervisor`
(supervisor_tool_handler.rs lines 172-180) calls `serde_json::to_string_pretty`,
an external serializer; the spec (section 1) places report formatting out of
scope as "a pure, stateless transformation", so it is modelled as a
deterministic rendering of the same fields. -/
def jsonRender (params : SupervisorToolParam) (agent_names : List String)
    (results : List AgentResult) : String :=
  "json(goal: " ++ params.goal ++
    ", agents: " ++ debugStrList agent_names ++
    ", strategy: " ++ params.strategy.getD "parallel" ++
    ", merge_strategy: " ++ params.merge_strategy.getD "concatenate" ++
    ", results: " ++
    String.intercalate "; "
      (results.map (fun r => r.agent_name ++ "=" ++ r.status.debugStr)) ++ ")"

/-- Embedding of `execute_supervisor` (supervisor_tool_handler.rs lines
104-238): require the runtime, build the agent configurations, call
`delegate_parallel`, and render the results in the requested format. -/
def execute_supervisor (params : SupervisorToolParam)
    (agent_runtime : Option AgentRuntime) : Except String String :=
  match agent_runtime with
  | none => Except.error "Agent runtime not initialized"
  | some runtime =>
    let agent_names := supervisorAgentNames params
    match runtime.delegate_parallel (supervisorAgentConfigs params) params.deadline with
    | Except.error e => Except.error e
    | Except.ok results =>
      if params.format = "json" then
        Except.ok (jsonRender params agent_names results)
      else
        Except.ok (markdownRender params agent_names results)

/-- A `CallToolResult` carrying a single text block and the error flag set
(the failure results built in `handle_supervisor_tool_call`). -/
def mkErrorResult (s : String) : CallToolResult :=
  { content := [ContentBlock.textContent { type := "text", text := s, annotations := none }],
    is_error := some true,
    structured_content := none }

/-- Embedding of `handle_supervisor_tool_call` (supervisor_tool_handler.rs
lines 15-102).  `arguments` models the raw optional JSON value together with
the outcome of the external serde deserialization: absent arguments, a failed
parse, or parsed parameters. -/
def handle_supervisor_tool_call
    (arguments : Option (Except String SupervisorToolParam))
    (agent_runtime : Option AgentRuntime) : CallToolResult :=
  match arguments with
  | none => mkErrorResult "Missing supervisor parameters"
  | some (Except.error e) => mkErrorResult ("Invalid supervisor parameters: " ++ e)
  | some (Except.ok params) =>
    match execute_supervisor params agent_runtime with
    | Except.error e => mkErrorResult ("Supervisor execution failed: " ++ e)
    | Except.ok output =>
      if params.format = "json" then
        mkTextResult output
      else
        mkTextResult
          ("# Supervisor Coordination Result\n\n**Goal**: " ++ params.goal ++
           "\n\n**Agents**: " ++ debugStrList (params.agents.getD []) ++
           "\n\n**Strategy**: " ++ params.strategy.getD "default" ++
           "\n\n## Results\n\n" ++ output)

/-- The empty integration state (no started agents, no traces). -/
def st0 : IntegrationState :=
  { states := [], thinking := [], next_id := 0 }

/-- A concrete running agent record. -/
def agentA : AgentState :=
  { agent_id := "agent-0", agent_type := AgentType.CodeExpert, status := "running",
    progress := 425, tokens_used := 120 }

/-- A second concrete agent record. -/
def agentB : AgentState :=
  { agent_id := "agent-1", agent_type := AgentType.SecurityExpert,
    status := "completed", progress := 1000, tokens_used := 50 }

/-- A concrete integration state holding two agent records. -/
def st2 : IntegrationState :=
  { states := [agentA, agentB], thinking := [], next_id := 2 }

/-- A concrete runtime whose delegation echoes one completed result per
requested agent configuration. -/
def rt0 : AgentRuntime :=
  { delegate_parallel := fun cfgs _ =>
      Except.ok (cfgs.map (fun c =>
        { agent_name := c.1, status := AgentStatus.Completed, tokens_used := 0,
          duration_secs := 0, artifacts := [], error := none })) }

theorem strContains_intro (hay needle : String) (p q : List Char)
    (h : hay.data = p ++ needle.data ++ q) : strContains hay needle :=
  ⟨p, q, h⟩

theorem strContains_of_mid (hay needle : String) (mid : List Char)
    (hmid : ∃ p q, hay.data = p ++ mid ++ q)
    (hin : ∃ p q, mid = p ++ needle.data ++ q) : strContains hay needle := by
  obtain ⟨p, q, h1⟩ := hmid
  obtain ⟨p2, q2, h2⟩ := hin
  exact ⟨p ++ p2, q2 ++ q, by simp [h1, h2, List.append_assoc]⟩

theorem foldl_fmt_data (l : List AgentState) (a : String) :
    (l.foldl (fun acc s => acc ++ fmtAgentLine s) a).data =
      a.data ++ (l.map (fun s => (fmtAgentLine s).data)).join := by
  induction l generalizing a with
  | nil => simp
  | cons x xs ih => simp [ih, String.data_append, List.append_assoc]

theorem fmtAgentLine_data (s : AgentState) :
    (fmtAgentLine s).data =
      "- **".data ++ s.agent_id.data ++ "** (".data ++ s.agent_type.as_str.data ++
        "): ".data ++ s.status.data ++ " - ".data ++ (fmtProgress s.progress).data ++
        "% complete\n".data := by
  simp [fmtAgentLine, String.data_append, List.append_assoc]

/-- C1: an input line that fails to decode as an RPC message is logged at
error severity ("Failed to deserialize JSONRPCMessage: ...") and dropped —
nothing is dispatched for it — and the reader continues reading and
dispatching the subsequent lines exactly as it would have without the
malformed line; a malformed line never ends the reader loop. -/
theorem reader_malformed_line_dropped {α : Type} (decode : String → Except String α)
    (s e : String) (rest : List ReadEvent) (h : decode s = Except.error e) :
    readerLoop decode true (ReadEvent.line s :: rest) =
      ((readerLoop decode true rest).1,
       ⟨LogLevel.error, "Failed to deserialize JSONRPCMessage: " ++ e⟩
         :: (readerLoop decode true rest).2) := by
  simp [readerLoop, h]

theorem reader_malformed_line_dropped_witness :
    readerLoop decode0 true [ReadEvent.line "bad", ReadEvent.line "ok"] =
      ((readerLoop decode0 true [ReadEvent.line "ok"]).1,
       ⟨LogLevel.error, "Failed to deserialize JSONRPCMessage: " ++ "invalid"⟩
         :: (readerLoop decode0 true [ReadEvent.line "ok"]).2) :=
  reader_malformed_line_dropped decode0 "bad" "invalid" [ReadEvent.line "ok"]
    (by simp [decode0])

/-- C3 counterexample: on the concrete input stream consisting of one I/O
read error, the reader stage ends but its log output is exactly the debug
"stdin reader finished (EOF)" entry — no error-severity entry is emitted at
all — refuting the claim that the I/O error is logged. -/
theorem reader_io_error_cex :
    (readerLoop decode0 true [ReadEvent.ioError "broken pipe"]).2 =
        [⟨LogLevel.debug, "stdin reader finished (EOF)"⟩] ∧
      ∀ l ∈ (readerLoop decode0 true [ReadEvent.ioError "broken pipe"]).2,
        l.level ≠ LogLevel.error := by
  exact ⟨rfl, by decide⟩

/-- C3 (amended): when the reader stage encounters an I/O error on the input
stream other than end-of-file, the stage ends exactly as it does on EOF —
it does not continue reading and does not crash — but the error itself is
not logged: the only log emitted is the debug "stdin reader finished (EOF)"
message (`unwrap_or_default` silently turns the error into end-of-stream). -/
theorem reader_io_error_ends_stage {α : Type} (decode : String → Except String α)
    (e : String) (rest : List ReadEvent) :
    readerLoop decode true (ReadEvent.ioError e :: rest) =
      ([], [⟨LogLevel.debug, "stdin reader finished (EOF)"⟩]) :=
  rfl

/-- C4 counterexample: with a concrete outbound message serializing to "msg"
and a stdout whose second `write_all` call (the newline write) fails, the
writer emits the serialized message and then stops: the output stream holds
"msg" with no terminating newline — a partial line — refuting the claim that
the writer never emits a partial line to the output stream. -/
theorem writer_partial_line_cex :
    (writerLoop ser0 we1 [()] 0).1 = ["msg"] ∧
      endsWithNewline (strConcat (writerLoop ser0 we1 [()] 0).1) = false := by
  decide

/-- C4 (amended): as long as every write succeeds, the writer emits, for each
outbound message that serializes successfully, exactly the serialized message
immediately followed by a newline (so each emitted line is terminated, never
partial); only a failing newline write can leave the final message
unterminated, after which the writer stops. -/
theorem writer_ok_writes_full_lines {α : Type} (ser : α → Except String String)
    (msgs : List α) (k : Nat) :
    (writerLoop ser (fun _ => none) msgs k).1 =
      (msgs.filterMap (fun m => (ser m).toOption)).bind (fun json => [json, "\n"]) := by
  induction msgs generalizing k with
  | nil => rfl
  | cons m rest ih =>
    cases hm : ser m with
    | ok json => simp [writerLoop, hm, Except.toOption, ih]
    | error e => simp [writerLoop, hm, Except.toOption, ih]

/-- C7: when serializing an outbound message fails in the writer stage, the
failure is logged at error severity ("Failed to serialize JSONRPCMessage:
...") and the message is skipped — nothing is written for it, it is not
retried — and the writer continues processing the subsequent outbound
messages exactly as it would have without the failing message. -/
theorem writer_serialize_failure_skipped {α : Type} (ser : α → Except String String)
    (writeErr : Nat → Option String) (m : α) (e : String) (rest : List α) (k : Nat)
    (h : ser m = Except.error e) :
    writerLoop ser writeErr (m :: rest) k =
      ((writerLoop ser writeErr rest k).1,
       ⟨LogLevel.error, "Failed to serialize JSONRPCMessage: " ++ e⟩
         :: (writerLoop ser writeErr rest k).2) := by
  simp [writerLoop, h]

theorem writer_serialize_failure_skipped_witness :
    writerLoop serW (fun _ => none) [false, true] 0 =
      ((writerLoop serW (fun _ => none) [true] 0).1,
       ⟨LogLevel.error, "Failed to serialize JSONRPCMessage: " ++ "cyclic structure"⟩
         :: (writerLoop serW (fun _ => none) [true] 0).2) :=
  writer_serialize_failure_skipped serW (fun _ => none) false "cyclic structure" [true] 0
    (by simp [serW])

/-- C2 counterexample: at the concrete invalid kind "InvalidAgentType",
`parse_agent_type` fails with exactly "Unknown agent type: InvalidAgentType";
that message names the rejected kind only and contains none of the valid kind
names, refuting the claim that the error message enumerates the closed set of
valid kinds. -/
theorem unknown_agent_kind_cex :
    parse_agent_type "InvalidAgentType" =
        Except.error "Unknown agent type: InvalidAgentType" ∧
      strContainsB "Unknown agent type: InvalidAgentType" "CodeExpert" = false ∧
      strContainsB "Unknown agent type: InvalidAgentType" "SecurityExpert" = false ∧
      strContainsB "Unknown agent type: InvalidAgentType" "TestingExpert" = false ∧
      strContainsB "Unknown agent type: InvalidAgentType" "DocsExpert" = false ∧
      strContainsB "Unknown agent type: InvalidAgentType" "DeepResearcher" = false ∧
      strContainsB "Unknown agent type: InvalidAgentType" "DebugExpert" = false ∧
      strContainsB "Unknown agent type: InvalidAgentType" "PerformanceExpert" = false ∧
      strContainsB "Unknown agent type: InvalidAgentType" "General" = false := by
  decide

/-- C2 (amended): for every agent-kind string not in the closed set,
`start_task` fails with the error "Unknown agent type: {kind}", which names
the rejected kind but does not enumerate the valid kinds, and no Agent Task
Record is created: the handler returns the error before `start_agent` is
ever invoked, leaving the integration state unchanged. -/
theorem start_task_unknown_kind (s t e : String) (st : IntegrationState)
    (h : parse_agent_type s = Except.error e) :
    e = "Unknown agent type: " ++ s ∧
      handle_subagent_tool_call
          { action := "start_task", agent_type := some s, task := some t,
            agent_id := none, task_id := none } (some st) =
        (Except.error e, some st) := by
  have he : e = "Unknown agent type: " ++ s := by
    simp only [parse_agent_type] at h
    split_ifs at h <;> simp_all
  exact ⟨he, by simp [handle_subagent_tool_call, h]⟩

theorem start_task_unknown_kind_witness :
    "Unknown agent type: InvalidAgentType" = "Unknown agent type: " ++ "InvalidAgentType" ∧
      handle_subagent_tool_call
          { action := "start_task", agent_type := some "InvalidAgentType",
            task := some "Test task", agent_id := none, task_id := none } (some st0) =
        (Except.error "Unknown agent type: InvalidAgentType", some st0) :=
  start_task_unknown_kind "InvalidAgentType" "Test task"
    "Unknown agent type: InvalidAgentType" st0 (by decide)

/-- C5: a supervisor tool call arriving while the agent runtime is absent is
answered with a failed result (is_error set) whose text reports the runtime
is not initialized, and a subagent tool call arriving while the integration
layer is absent makes the handler fail with "AsyncSubAgentIntegration not
initialized", which the router surfaces as a failed Response; in neither
case does the call proceed. -/
theorem uninitialized_layer_rejected (p : SupervisorToolParam)
    (params : SubAgentToolParam) :
    handle_supervisor_tool_call (some (Except.ok p)) none =
        mkErrorResult "Supervisor execution failed: Agent runtime not initialized" ∧
      (handle_supervisor_tool_call (some (Except.ok p)) none).is_error = some true ∧
      strContainsB (getText (handle_supervisor_tool_call (some (Except.ok p)) none))
          "not initialized" = true ∧
      handle_subagent_tool_call params none =
        (Except.error "AsyncSubAgentIntegration not initialized", none) ∧
      (routerWrap (handle_subagent_tool_call params none).1).is_error = some true := by
  have h1 : handle_supervisor_tool_call (some (Except.ok p)) none =
      mkErrorResult "Supervisor execution failed: Agent runtime not initialized" := rfl
  refine ⟨h1, by rw [h1]; rfl, ?_, ?_, ?_⟩
  · rw [h1]; decide
  · simp [handle_subagent_tool_call]
  · simp [handle_subagent_tool_call, routerWrap]

/-- C6: a subagent tool call whose action string is none of the six
recognized actions is answered by the handler with the failure
"Unknown action: {action}" (the handler is a total function — it cannot
panic), and the router surfaces it as a failed Response carrying that
descriptive message. -/
theorem unknown_action_rejected (params : SubAgentToolParam) (st : IntegrationState)
    (h1 : params.action ≠ "start_task") (h2 : params.action ≠ "check_inbox")
    (h3 : params.action ≠ "get_status") (h4 : params.action ≠ "auto_dispatch")
    (h5 : params.action ≠ "get_thinking") (h6 : params.action ≠ "get_token_report") :
    handle_subagent_tool_call params (some st) =
        (Except.error ("Unknown action: " ++ params.action), some st) ∧
      (routerWrap (handle_subagent_tool_call params (some st)).1).is_error = some true ∧
      getText (routerWrap (handle_subagent_tool_call params (some st)).1) =
        "Unknown action: " ++ params.action := by
  have hmain : handle_subagent_tool_call params (some st) =
      (Except.error ("Unknown action: " ++ params.action), some st) := by
    simp [handle_subagent_tool_call, h1, h2, h3, h4, h5, h6]
  exact ⟨hmain, by simp [hmain, routerWrap], by simp [hmain, routerWrap, getText]⟩

theorem unknown_action_rejected_witness :
    handle_subagent_tool_call
        { action := "delete_everything", agent_type := none, task := none,
          agent_id := none, task_id := none } (some st0) =
        (Except.error ("Unknown action: " ++ "delete_everything"), some st0) ∧
      (routerWrap (handle_subagent_tool_call
          { action := "delete_everything", agent_type := none, task := none,
            agent_id := none, task_id := none } (some st0)).1).is_error = some true ∧
      getText (routerWrap (handle_subagent_tool_call
          { action := "delete_everything", agent_type := none, task := none,
            agent_id := none, task_id := none } (some st0)).1) =
        "Unknown action: " ++ "delete_everything" :=
  unknown_action_rejected _ st0 (by decide) (by decide) (by decide) (by decide)
    (by decide) (by decide)

/-- C8: a check_inbox call is always answered successfully: with zero started
agents it returns the text "📬 Inbox\n\nNo active agents or notifications."
(an explicit no-active-agents indication, with no error flag), and with
agents present its text lists, for every agent record, the agent id, the
agent type name, the status, and the one-decimal progress value. -/
theorem check_inbox_contract (st : IntegrationState) :
    handle_subagent_tool_call
        { action := "check_inbox", agent_type := none, task := none,
          agent_id := none, task_id := none } (some st) =
        (Except.ok (mkTextResult (checkInboxText (get_agent_states st))), some st) ∧
      (st.states = [] →
        checkInboxText (get_agent_states st) =
          "📬 Inbox\n\nNo active agents or notifications.") ∧
      (mkTextResult (checkInboxText (get_agent_states st))).is_error = none ∧
      ∀ s ∈ st.states,
        strContains (checkInboxText (get_agent_states st)) s.agent_id ∧
        strContains (checkInboxText (get_agent_states st)) s.agent_type.as_str ∧
        strContains (checkInboxText (get_agent_states st)) s.status ∧
        strContains (checkInboxText (get_agent_states st)) (fmtProgress s.progress) := by
  refine ⟨by simp [handle_subagent_tool_call], ?_, rfl, ?_⟩
  · intro hempty
    simp [checkInboxText, get_agent_states, hempty]
  · intro s hs
    obtain ⟨l1, l2, hsplit⟩ := List.append_of_mem hs
    have hne : st.states.isEmpty = false := by
      rw [hsplit]; cases l1 <;> simp
    have hdata : (checkInboxText (get_agent_states st)).data =
        ("📬 Active Agents\n\n".data ++
           (l1.map (fun x => (fmtAgentLine x).data)).join) ++
          (fmtAgentLine s).data ++
          (l2.map (fun x => (fmtAgentLine x).data)).join := by
      rw [checkInboxText, get_agent_states, hne]
      simp only [Bool.false_eq_true, if_false, foldl_fmt_data, hsplit]
      simp [List.append_assoc]
    have hmid : ∃ p q, (checkInboxText (get_agent_states st)).data =
        p ++ (fmtAgentLine s).data ++ q :=
      ⟨_, _, hdata⟩
    refine ⟨?_, ?_, ?_, ?_⟩
    · exact strContains_of_mid _ _ _ hmid
        ⟨"- **".data, ("** (".data ++ s.agent_type.as_str.data ++ "): ".data ++
          s.status.data ++ " - ".data ++ (fmtProgress s.progress).data ++
          "% complete\n".data), by simp [fmtAgentLine_data, List.append_assoc]⟩
    · exact strContains_of_mid _ _ _ hmid
        ⟨("- **".data ++ s.agent_id.data ++ "** (".data),
         ("): ".data ++ s.status.data ++ " - ".data ++ (fmtProgress s.progress).data ++
          "% complete\n".data), by simp [fmtAgentLine_data, List.append_assoc]⟩
    · exact strContains_of_mid _ _ _ hmid
        ⟨("- **".data ++ s.agent_id.data ++ "** (".data ++ s.agent_type.as_str.data ++
          "): ".data),
         (" - ".data ++ (fmtProgress s.progress).data ++ "% complete\n".data),
         by simp [fmtAgentLine_data, List.append_assoc]⟩
    · exact strContains_of_mid _ _ _ hmid
        ⟨("- **".data ++ s.agent_id.data ++ "** (".data ++ s.agent_type.as_str.data ++
          "): ".data ++ s.status.data ++ " - ".data),
         "% complete\n".data,
         by simp [fmtAgentLine_data, List.append_assoc]⟩

theorem check_inbox_contract_witness :
    handle_subagent_tool_call
        { action := "check_inbox", agent_type := none, task := none,
          agent_id := none, task_id := none } (some st0) =
        (Except.ok (mkTextResult (checkInboxText (get_agent_states st0))), some st0) ∧
      checkInboxText (get_agent_states st0) =
        "📬 Inbox\n\nNo active agents or notifications." ∧
      strContains (checkInboxText (get_agent_states st2)) "agent-1" := by
  refine ⟨(check_inbox_contract st0).1, (check_inbox_contract st0).2.1 rfl, ?_⟩
  exact (((check_inbox_contract st2).2.2.2 agentB (by decide)).1)

/-- C9: a get_thinking call with an id for which no thinking trace exists
returns a successful result (no error flag) whose text carries the sentinel
"No thinking process found for {id}", naming the id, never an error. -/
theorem get_thinking_absent (st : IntegrationState) (tid : String)
    (h : get_thinking_summary st tid = none) :
    handle_subagent_tool_call
        { action := "get_thinking", agent_type := none, task := none,
          agent_id := none, task_id := some tid } (some st) =
        (Except.ok (mkTextResult
          ("💭 Thinking Process\n\n**Task ID**: " ++ tid ++ "\n\n" ++
           ("No thinking process found for " ++ tid))), some st) ∧
      (mkTextResult
          ("💭 Thinking Process\n\n**Task ID**: " ++ tid ++ "\n\n" ++
           ("No thinking process found for " ++ tid))).is_error = none := by
  exact ⟨by simp [handle_subagent_tool_call, h], rfl⟩

theorem get_thinking_absent_witness :
    handle_subagent_tool_call
        { action := "get_thinking", agent_type := none, task := none,
          agent_id := none, task_id := some "agent-42" } (some st0) =
        (Except.ok (mkTextResult
          ("💭 Thinking Process\n\n**Task ID**: " ++ "agent-42" ++ "\n\n" ++
           ("No thinking process found for " ++ "agent-42"))), some st0) ∧
      (mkTextResult
          ("💭 Thinking Process\n\n**Task ID**: " ++ "agent-42" ++ "\n\n" ++
           ("No thinking process found for " ++ "agent-42"))).is_error = none :=
  get_thinking_absent st0 "agent-42" (by decide)

/-- C10: a supervisor tool call that omits the agents list defaults to the
single agent name "CodeExpert": the handler builds exactly one agent
configuration carrying the supplied goal, empty inputs, and no per-agent
budget, and `execute_supervisor` proceeds to delegate exactly that singleton
batch (rather than launching zero agents or failing). -/
theorem supervisor_default_agents (p : SupervisorToolParam) (rt : AgentRuntime)
    (h : p.agents = none) :
    supervisorAgentNames p = ["CodeExpert"] ∧
      supervisorAgentConfigs p = [("CodeExpert", p.goal, [], none)] ∧
      execute_supervisor p (some rt) =
        (match rt.delegate_parallel [("CodeExpert", p.goal, [], none)] p.deadline with
         | Except.error e => Except.error e
         | Except.ok results =>
           if p.format = "json" then Except.ok (jsonRender p ["CodeExpert"] results)
           else Except.ok (markdownRender p ["CodeExpert"] results)) := by
  have hn : supervisorAgentNames p = ["CodeExpert"] := by
    simp [supervisorAgentNames, h]
  have hc : supervisorAgentConfigs p = [("CodeExpert", p.goal, [], none)] := by
    simp [supervisorAgentConfigs, hn]
  refine ⟨hn, hc, ?_⟩
  simp [execute_supervisor, hn, hc]

theorem supervisor_default_agents_witness :
    supervisorAgentNames
        { goal := "Test goal", agents := none, strategy := none,
          merge_strategy := none, deadline := none, format := "markdown" } =
      ["CodeExpert"] ∧
    supervisorAgentConfigs
        { goal := "Test goal", agents := none, strategy := none,
          merge_strategy := none, deadline := none, format := "markdown" } =
      [("CodeExpert", "Test goal", [], none)] :=
  ⟨(supervisor_default_agents
      { goal := "Test goal", agents := none, strategy := none,
        merge_strategy := none, deadline := none, format := "markdown" } rt0 rfl).1,
   (supervisor_default_agents
      { goal := "Test goal", agents := none, strategy := none,
        merge_strategy := none, deadline := none, format := "markdown" } rt0 rfl).2.1⟩
